import Mathlib

/-!
Verification of the Echoes AR projection and marker-selection engine.

The definitions below are a shallow embedding of the geodesy and projection
code of the AR screen (`computeBearing`, `computeDistance`, `isSameLocation`,
the body of `renderMarkers`, and `closeByPhotos`).  JavaScript numbers are
modelled as real numbers; the JavaScript remainder operator `%` (truncated
remainder, result carries the sign of the dividend) is modelled by `jsFmod`,
and `Math.atan2 y x` by the argument of the complex number `x + y*i`, which
lies in the interval `(-pi, pi]` exactly as the mathematical `atan2` does.
-/

namespace Echoes

open Real

open scoped Classical

/-- `Math.atan2 y x`, modelled as the argument of the complex number `x + y*i`.
Matches the JavaScript behaviour on all real inputs (range `(-pi, pi]`,
`atan2 0 0 = 0`). -/
noncomputable def atan2 (y x : ℝ) : ℝ := Complex.arg ⟨x, y⟩

/-- JavaScript `a % b`: truncated remainder, `a - b * trunc (a / b)`.
The result has the sign of the dividend `a`. -/
noncomputable def jsFmod (a b : ℝ) : ℝ :=
  if 0 ≤ a / b then a - b * ⌊a / b⌋ else a - b * ⌈a / b⌉

/-- `const toRad = (deg) => (deg * Math.PI) / 180`. -/
noncomputable def toRad (deg : ℝ) : ℝ := deg * π / 180

/-- `const toDeg = (rad) => (rad * 180) / Math.PI`. -/
noncomputable def toDeg (rad : ℝ) : ℝ := rad * 180 / π

/-- `computeBearing(lat1, long1, lat2, long2)` from the AR screen:
`y = sin(Δλ)cos(φ2)`, `x = cos(φ1)sin(φ2) - sin(φ1)cos(φ2)cos(Δλ)`,
bearing `= (toDeg(atan2(y, x)) + 360) % 360`. -/
noncomputable def computeBearing (lat1 long1 lat2 long2 : ℝ) : ℝ :=
  jsFmod
    (toDeg (atan2
      (Real.sin (toRad long2 - toRad long1) * Real.cos (toRad lat2))
      (Real.cos (toRad lat1) * Real.sin (toRad lat2) -
        Real.sin (toRad lat1) * Real.cos (toRad lat2) *
          Real.cos (toRad long2 - toRad long1))) + 360) 360

/-- `computeDistance(lat1, lon1, lat2, lon2)`: haversine distance with
`R = 6371e3`, `a = sin²(Δφ/2) + cos(φ1)cos(φ2)sin²(Δλ/2)`,
result `= 2 * R * atan2(sqrt a, sqrt (1 - a))`. -/
noncomputable def computeDistance (lat1 lon1 lat2 lon2 : ℝ) : ℝ :=
  2 * 6371e3 * atan2
    (Real.sqrt (Real.sin (toRad (lat2 - lat1) / 2) ^ 2 +
      Real.cos (toRad lat1) * Real.cos (toRad lat2) *
        Real.sin (toRad (lon2 - lon1) / 2) ^ 2))
    (Real.sqrt (1 - (Real.sin (toRad (lat2 - lat1) / 2) ^ 2 +
      Real.cos (toRad lat1) * Real.cos (toRad lat2) *
        Real.sin (toRad (lon2 - lon1) / 2) ^ 2)))

/-- A latitude/longitude pair (`Location.LocationObjectCoords` as used by the
AR screen, and the location fields of a photo). -/
structure Coords where
  latitude : ℝ
  longitude : ℝ

/-- `isSameLocation(a, b, threshold)`: coarse box pre-filter,
`|a.latitude - b.latitude| < threshold && |a.longitude - b.longitude| < threshold`. -/
def isSameLocation (a b : Coords) (threshold : ℝ) : Prop :=
  |a.latitude - b.latitude| < threshold ∧ |a.longitude - b.longitude| < threshold

/-- `const CAMERA_HORIZONTAL_FOV = 60`. -/
noncomputable def CAMERA_HORIZONTAL_FOV : ℝ := 60

/-- `const LOCATION_THRESHOLD = 0.05`. -/
noncomputable def LOCATION_THRESHOLD : ℝ := 0.05

/-- `const CLOSE_BY_DISTANCE = 25`. -/
noncomputable def CLOSE_BY_DISTANCE : ℝ := 25

/-- The angular-offset line of `renderMarkers`:
`const angleDiff = ((dynamicBearing - heading + 540) % 360) - 180`. -/
noncomputable def angleDiff (bearing heading : ℝ) : ℝ :=
  jsFmod (bearing - heading + 540) 360 - 180

/-- A photo marker: `{ id, uri, latitude, longitude }`. -/
structure PhotoMarker where
  id : String
  uri : String
  latitude : ℝ
  longitude : ℝ

/-- The near/far/field-of-view classification of the data model: NEAR photos
go to the close-by strip, FAR_VISIBLE photos are rendered as AR overlays,
FAR_HIDDEN photos are culled by the field-of-view test. -/
inductive Classification where
  | NEAR
  | FAR_VISIBLE
  | FAR_HIDDEN
deriving DecidableEq

/-- The classification decision of `renderMarkers`, following its control flow
for one photo: `none` when the coarse `isSameLocation` pre-filter rejects the
photo (it is not classified at all), `some NEAR` when
`dynamicDistance < CLOSE_BY_DISTANCE` (the photo is skipped by the overlay and
belongs to the close-by strip), `some FAR_HIDDEN` when
`Math.abs(angleDiff) > CAMERA_HORIZONTAL_FOV / 2`, and `some FAR_VISIBLE`
otherwise (the photo is rendered as an AR overlay marker). -/
noncomputable def classify (location : Coords) (heading : ℝ)
    (photo : PhotoMarker) : Option Classification :=
  if ¬ isSameLocation location ⟨photo.latitude, photo.longitude⟩ LOCATION_THRESHOLD then
    none
  else if computeDistance location.latitude location.longitude
      photo.latitude photo.longitude < CLOSE_BY_DISTANCE then
    some Classification.NEAR
  else if |angleDiff (computeBearing location.latitude location.longitude
      photo.latitude photo.longitude) heading| > CAMERA_HORIZONTAL_FOV / 2 then
    some Classification.FAR_HIDDEN
  else
    some Classification.FAR_VISIBLE

/-- The data of one rendered AR overlay marker: the `left`/`top` style offsets
(the marker container is 50 px wide, so `left = xPos - 25`), the `scale`
transform and the displayed distance. -/
structure RenderedMarker where
  id : String
  uri : String
  left : ℝ
  top : ℝ
  scale : ℝ
  distanceMeters : ℝ

/-- The body of `renderMarkers` for one photo.  `screenWidth` and
`screenHeight` stand for the device constants `SCREEN_WIDTH` and
`SCREEN_HEIGHT` (`Dimensions.get('window')`); `location` and `heading` are the
current state.  Returns `none` exactly when the source returns `null`
(pre-filter rejection, close-by photo, or outside the field of view), and
otherwise the rendered marker with
`xPos = ((angleDiff + FOV/2) / FOV) * SCREEN_WIDTH` placed at
`left = xPos - 25`, `top = SCREEN_HEIGHT / 2 - 25`, and
`scale = Math.min(1.5, 50 / Math.max(dynamicDistance, 1))`. -/
noncomputable def renderMarker (screenWidth screenHeight : ℝ) (location : Coords)
    (heading : ℝ) (photo : PhotoMarker) : Option RenderedMarker :=
  if ¬ isSameLocation location ⟨photo.latitude, photo.longitude⟩ LOCATION_THRESHOLD then
    none
  else if computeDistance location.latitude location.longitude
      photo.latitude photo.longitude < CLOSE_BY_DISTANCE then
    none
  else if |angleDiff (computeBearing location.latitude location.longitude
      photo.latitude photo.longitude) heading| > CAMERA_HORIZONTAL_FOV / 2 then
    none
  else
    some
      { id := photo.id
        uri := photo.uri
        left := ((angleDiff (computeBearing location.latitude location.longitude
            photo.latitude photo.longitude) heading + CAMERA_HORIZONTAL_FOV / 2) /
              CAMERA_HORIZONTAL_FOV) * screenWidth - 25
        top := screenHeight / 2 - 25
        scale := min 1.5 (50 / max (computeDistance location.latitude location.longitude
            photo.latitude photo.longitude) 1)
        distanceMeters := computeDistance location.latitude location.longitude
            photo.latitude photo.longitude }

/-- `closeByPhotos`: `photos.filter((photo) => computeDistance(...) < CLOSE_BY_DISTANCE)`. -/
noncomputable def closeByPhotos (location : Coords)
    (photos : List PhotoMarker) : List PhotoMarker :=
  photos.filter fun photo =>
    decide (computeDistance location.latitude location.longitude
      photo.latitude photo.longitude < CLOSE_BY_DISTANCE)

/-! ### Evaluation helpers -/

/-- Evaluate `jsFmod a b` when the quotient lies in `[k, k+1)` for a
nonnegative integer `k`. -/
theorem jsFmod_eq (a b : ℝ) (k : ℤ) (hk : 0 ≤ k) (hb : 0 < b)
    (h1 : b * k ≤ a) (h2 : a < b * (k + 1)) : jsFmod a b = a - b * k := by
  have hq1 : (k : ℝ) ≤ a / b := (le_div_iff₀ hb).2 (by linarith [h1])
  have hq2 : a / b < (k : ℝ) + 1 := (div_lt_iff₀ hb).2 (by linarith [h2])
  have hfloor : ⌊a / b⌋ = k := Int.floor_eq_iff.2 ⟨hq1, hq2⟩
  have hq0 : 0 ≤ a / b := le_trans (by exact_mod_cast hk) hq1
  rw [jsFmod, if_pos hq0, hfloor]

/-- For a nonnegative dividend and positive divisor, `jsFmod a b` lies in
`[0, b)`. -/
theorem jsFmod_nonneg_lt (a b : ℝ) (ha : 0 ≤ a) (hb : 0 < b) :
    0 ≤ jsFmod a b ∧ jsFmod a b < b := by
  have hq : 0 ≤ a / b := div_nonneg ha hb.le
  have key : a - b * ⌊a / b⌋ = b * Int.fract (a / b) := by
    rw [Int.fract]
    field_simp
  rw [jsFmod, if_pos hq, key]
  constructor
  · exact mul_nonneg hb.le (Int.fract_nonneg _)
  · calc b * Int.fract (a / b) < b * 1 := by
          exact (mul_lt_mul_left hb).2 (Int.fract_lt_one _)
    _ = b := mul_one b

/-- `atan2` inverts the polar decomposition on `(-pi, pi]`. -/
theorem atan2_sin_cos (u : ℝ) (h1 : -π < u) (h2 : u ≤ π) :
    atan2 (Real.sin u) (Real.cos u) = u := by
  unfold atan2
  rw [Complex.mk_eq_add_mul_I, Complex.ofReal_cos, Complex.ofReal_sin]
  exact Complex.arg_cos_add_sin_mul_I ⟨h1, h2⟩

/-- `atan2 0 x = 0` for `0 ≤ x` (this includes `atan2 0 0 = 0`, as in
JavaScript). -/
theorem atan2_zero_nonneg (x : ℝ) (hx : 0 ≤ x) : atan2 0 x = 0 := by
  unfold atan2
  have hcoe : (⟨x, 0⟩ : ℂ) = (x : ℂ) := rfl
  rw [hcoe]
  exact Complex.arg_ofReal_of_nonneg hx

/-- `(toDeg 0 + 360) % 360 = 0`: the common tail of `computeBearing` when the
`atan2` result is `0`. -/
theorem jsFmod_toDeg_zero : jsFmod (toDeg 0 + 360) 360 = 0 := by
  have h0 : toDeg 0 = 0 := by
    unfold toDeg
    simp
  rw [h0, zero_add]
  have := jsFmod_eq 360 360 1 (by norm_num) (by norm_num) (by norm_num) (by norm_num)
  simpa using this

/-- Haversine distance due north along a meridian: moving `δ` degrees of
latitude (for `0 ≤ δ ≤ 180`) at constant longitude gives exactly
`R * toRad δ = 6371e3 * (δ * π / 180)` meters. -/
theorem computeDistance_meridian (lat lon δ : ℝ) (h0 : 0 ≤ δ) (h180 : δ ≤ 180) :
    computeDistance lat lon (lat + δ) lon = 6371e3 * (δ * π / 180) := by
  have hπ := Real.pi_pos
  have hu0 : 0 ≤ toRad δ / 2 := by
    unfold toRad
    have h1 : 0 ≤ δ * π := mul_nonneg h0 hπ.le
    linarith
  have huπ : toRad δ / 2 ≤ π / 2 := by
    unfold toRad
    have h1 : δ * π ≤ 180 * π := by nlinarith
    linarith
  have hsin : Real.sqrt (Real.sin (toRad δ / 2) ^ 2) = Real.sin (toRad δ / 2) :=
    Real.sqrt_sq (Real.sin_nonneg_of_nonneg_of_le_pi hu0 (by linarith))
  have hcos : Real.sqrt (1 - Real.sin (toRad δ / 2) ^ 2) = Real.cos (toRad δ / 2) := by
    rw [← Real.cos_sq']
    exact Real.sqrt_sq (Real.cos_nonneg_of_mem_Icc ⟨by linarith, huπ⟩)
  have ha : Real.sin (toRad (lat + δ - lat) / 2) ^ 2 +
      Real.cos (toRad lat) * Real.cos (toRad (lat + δ)) *
        Real.sin (toRad (lon - lon) / 2) ^ 2 = Real.sin (toRad δ / 2) ^ 2 := by
    rw [show lat + δ - lat = δ from by ring, sub_self lon]
    have hz : toRad 0 = 0 := by
      unfold toRad
      ring
    rw [hz]
    simp
  have hatan : atan2 (Real.sin (toRad δ / 2)) (Real.cos (toRad δ / 2)) = toRad δ / 2 :=
    atan2_sin_cos _ (by linarith) (by linarith)
  unfold computeDistance
  rw [ha, hsin, hcos, hatan]
  unfold toRad
  ring

/-- Bearing due north along a meridian: a target `δ` degrees of latitude to
the north (for `0 < δ < 180`) at the same longitude has bearing `0`. -/
theorem computeBearing_meridian (lat lon δ : ℝ) (h0 : 0 < δ) (h180 : δ < 180) :
    computeBearing lat lon (lat + δ) lon = 0 := by
  have hπ := Real.pi_pos
  have hy : Real.sin (toRad lon - toRad lon) * Real.cos (toRad (lat + δ)) = 0 := by
    rw [sub_self]
    simp
  have hx : Real.cos (toRad lat) * Real.sin (toRad (lat + δ)) -
      Real.sin (toRad lat) * Real.cos (toRad (lat + δ)) *
        Real.cos (toRad lon - toRad lon) =
      Real.sin (toRad (lat + δ) - toRad lat) := by
    rw [sub_self, Real.cos_zero, Real.sin_sub]
    ring
  have harg : toRad (lat + δ) - toRad lat = toRad δ := by
    unfold toRad
    ring
  have hxpos : 0 < Real.sin (toRad δ) := by
    apply Real.sin_pos_of_pos_of_lt_pi
    · unfold toRad
      have := mul_pos h0 hπ
      linarith
    · unfold toRad
      nlinarith
  unfold computeBearing
  rw [hy, hx, harg, atan2_zero_nonneg _ hxpos.le, jsFmod_toDeg_zero]

/-- The degenerate bearing: identical endpoints give `atan2 0 0 = 0` and
hence bearing `0`. -/
theorem computeBearing_self (lat lon : ℝ) : computeBearing lat lon lat lon = 0 := by
  have hy : Real.sin (toRad lon - toRad lon) * Real.cos (toRad lat) = 0 := by
    rw [sub_self]
    simp
  have hx : Real.cos (toRad lat) * Real.sin (toRad lat) -
      Real.sin (toRad lat) * Real.cos (toRad lat) *
        Real.cos (toRad lon - toRad lon) = 0 := by
    rw [sub_self, Real.cos_zero]
    ring
  unfold computeBearing
  rw [hy, hx, atan2_zero_nonneg 0 le_rfl, jsFmod_toDeg_zero]

/-! ### Control-flow lemmas for the projection pipeline -/

/-- `classify` yields NEAR exactly on the close-by branch. -/
theorem classify_eq_NEAR (location : Coords) (heading : ℝ) (photo : PhotoMarker)
    (hbox : isSameLocation location ⟨photo.latitude, photo.longitude⟩ LOCATION_THRESHOLD)
    (hnear : computeDistance location.latitude location.longitude
      photo.latitude photo.longitude < CLOSE_BY_DISTANCE) :
    classify location heading photo = some Classification.NEAR := by
  unfold classify
  rw [if_neg (not_not_intro hbox), if_pos hnear]

/-- `classify` yields FAR_HIDDEN on the field-of-view cull branch. -/
theorem classify_eq_FAR_HIDDEN (location : Coords) (heading : ℝ) (photo : PhotoMarker)
    (hbox : isSameLocation location ⟨photo.latitude, photo.longitude⟩ LOCATION_THRESHOLD)
    (hfar : CLOSE_BY_DISTANCE ≤ computeDistance location.latitude location.longitude
      photo.latitude photo.longitude)
    (hfov : CAMERA_HORIZONTAL_FOV / 2 < |angleDiff (computeBearing location.latitude
      location.longitude photo.latitude photo.longitude) heading|) :
    classify location heading photo = some Classification.FAR_HIDDEN := by
  unfold classify
  rw [if_neg (not_not_intro hbox), if_neg (not_lt.2 hfar), if_pos hfov]

/-- `classify` yields FAR_VISIBLE on the final branch. -/
theorem classify_eq_FAR_VISIBLE (location : Coords) (heading : ℝ) (photo : PhotoMarker)
    (hbox : isSameLocation location ⟨photo.latitude, photo.longitude⟩ LOCATION_THRESHOLD)
    (hfar : CLOSE_BY_DISTANCE ≤ computeDistance location.latitude location.longitude
      photo.latitude photo.longitude)
    (hfov : |angleDiff (computeBearing location.latitude
      location.longitude photo.latitude photo.longitude) heading| ≤
        CAMERA_HORIZONTAL_FOV / 2) :
    classify location heading photo = some Classification.FAR_VISIBLE := by
  unfold classify
  rw [if_neg (not_not_intro hbox), if_neg (not_lt.2 hfar), if_neg (not_lt.2 hfov)]

/-- `classify` rejects (no classification) exactly when the coarse box
pre-filter fails. -/
theorem classify_eq_none_iff (location : Coords) (heading : ℝ) (photo : PhotoMarker) :
    classify location heading photo = none ↔
      ¬ isSameLocation location ⟨photo.latitude, photo.longitude⟩ LOCATION_THRESHOLD := by
  unfold classify
  split_ifs with h1 h2 h3 <;> simp [h1]

/-- Inversion for `classify = some NEAR`. -/
theorem classify_NEAR_elim (location : Coords) (heading : ℝ) (photo : PhotoMarker)
    (h : classify location heading photo = some Classification.NEAR) :
    isSameLocation location ⟨photo.latitude, photo.longitude⟩ LOCATION_THRESHOLD ∧
      computeDistance location.latitude location.longitude
        photo.latitude photo.longitude < CLOSE_BY_DISTANCE := by
  unfold classify at h
  split_ifs at h with h1 h2 h3
  · exact ⟨h1, h2⟩
  · exact absurd (Option.some.inj h) (by simp)
  · exact absurd (Option.some.inj h) (by simp)

/-- Inversion for `renderMarker = some m`: the marker was accepted by all
three gates and its fields are the rendered values. -/
theorem renderMarker_some_elim (screenWidth screenHeight : ℝ) (location : Coords)
    (heading : ℝ) (photo : PhotoMarker) (m : RenderedMarker)
    (h : renderMarker screenWidth screenHeight location heading photo = some m) :
    isSameLocation location ⟨photo.latitude, photo.longitude⟩ LOCATION_THRESHOLD ∧
      CLOSE_BY_DISTANCE ≤ computeDistance location.latitude location.longitude
        photo.latitude photo.longitude ∧
      |angleDiff (computeBearing location.latitude location.longitude
        photo.latitude photo.longitude) heading| ≤ CAMERA_HORIZONTAL_FOV / 2 ∧
      m = { id := photo.id
            uri := photo.uri
            left := ((angleDiff (computeBearing location.latitude location.longitude
                photo.latitude photo.longitude) heading + CAMERA_HORIZONTAL_FOV / 2) /
                  CAMERA_HORIZONTAL_FOV) * screenWidth - 25
            top := screenHeight / 2 - 25
            scale := min 1.5 (50 / max (computeDistance location.latitude location.longitude
                photo.latitude photo.longitude) 1)
            distanceMeters := computeDistance location.latitude location.longitude
                photo.latitude photo.longitude } := by
  unfold renderMarker at h
  split_ifs at h with h1 h2 h3
  exact ⟨h1, not_lt.1 h2, not_lt.1 h3, (Option.some.inj h).symm⟩

/-- Introduction for `renderMarker = some`: an in-range, far, in-view photo is
rendered with the projected fields. -/
theorem renderMarker_eq_some (screenWidth screenHeight : ℝ) (location : Coords)
    (heading : ℝ) (photo : PhotoMarker)
    (hbox : isSameLocation location ⟨photo.latitude, photo.longitude⟩ LOCATION_THRESHOLD)
    (hfar : CLOSE_BY_DISTANCE ≤ computeDistance location.latitude location.longitude
      photo.latitude photo.longitude)
    (hfov : |angleDiff (computeBearing location.latitude location.longitude
      photo.latitude photo.longitude) heading| ≤ CAMERA_HORIZONTAL_FOV / 2) :
    renderMarker screenWidth screenHeight location heading photo =
      some { id := photo.id
             uri := photo.uri
             left := ((angleDiff (computeBearing location.latitude location.longitude
                 photo.latitude photo.longitude) heading + CAMERA_HORIZONTAL_FOV / 2) /
                   CAMERA_HORIZONTAL_FOV) * screenWidth - 25
             top := screenHeight / 2 - 25
             scale := min 1.5 (50 / max (computeDistance location.latitude location.longitude
                 photo.latitude photo.longitude) 1)
             distanceMeters := computeDistance location.latitude location.longitude
                 photo.latitude photo.longitude } := by
  unfold renderMarker
  rw [if_neg (not_not_intro hbox), if_neg (not_lt.2 hfar), if_neg (not_lt.2 hfov)]

/-- A close-by photo is never rendered as an AR overlay marker. -/
theorem renderMarker_eq_none_of_near (screenWidth screenHeight : ℝ) (location : Coords)
    (heading : ℝ) (photo : PhotoMarker)
    (hnear : computeDistance location.latitude location.longitude
      photo.latitude photo.longitude < CLOSE_BY_DISTANCE) :
    renderMarker screenWidth screenHeight location heading photo = none := by
  unfold renderMarker
  split_ifs with h1
  · rfl
  · rfl

/-- Membership in `closeByPhotos` is membership in the input list together
with the strict distance test. -/
theorem mem_closeByPhotos_iff (location : Coords) (photos : List PhotoMarker)
    (photo : PhotoMarker) :
    photo ∈ closeByPhotos location photos ↔
      photo ∈ photos ∧ computeDistance location.latitude location.longitude
        photo.latitude photo.longitude < CLOSE_BY_DISTANCE := by
  unfold closeByPhotos
  simp [List.mem_filter]

/-- `closeByPhotos` is a sublist of its input: it preserves the input
candidate order. -/
theorem closeByPhotos_sublist (location : Coords) (photos : List PhotoMarker) :
    (closeByPhotos location photos).Sublist photos :=
  List.filter_sublist photos

/-! ### Concrete inputs used by witnesses and counterexamples -/

/-- The origin as current position. -/
noncomputable def loc0 : Coords := ⟨0, 0⟩

/-- The end-to-end scenario position `(37.7749, -122.4194)`. -/
noncomputable def loc37 : Coords := ⟨37.7749, -122.4194⟩

/-- A photo `0.0002°` of latitude due north of `loc0` (about 22.2 m away). -/
noncomputable def pA : PhotoMarker := ⟨"a", "uriA", 2 / 10000, 0⟩

/-- A photo `0.0001°` of latitude due north of `loc0` (about 11.1 m away). -/
noncomputable def pB : PhotoMarker := ⟨"b", "uriB", 1 / 10000, 0⟩

/-- A photo `0.001°` of latitude due north of `loc0` (about 111.2 m away). -/
noncomputable def pC : PhotoMarker := ⟨"c", "uriC", 1 / 1000, 0⟩

/-- A photo due north of `loc0` at haversine distance exactly 25 m. -/
noncomputable def pT : PhotoMarker := ⟨"t", "uriT", 4500 / (6371000 * π), 0⟩

/-- A photo due north of `loc37` at haversine distance exactly 100 m. -/
noncomputable def pN : PhotoMarker :=
  ⟨"n", "uriN", 37.7749 + 18000 / (6371000 * π), -122.4194⟩

theorem dist_pA : computeDistance loc0.latitude loc0.longitude
    pA.latitude pA.longitude = 6371 * π / 900 := by
  have h := computeDistance_meridian 0 0 (2 / 10000) (by norm_num) (by norm_num)
  rw [zero_add] at h
  show computeDistance 0 0 (2 / 10000) 0 = 6371 * π / 900
  rw [h]
  ring

theorem dist_pB : computeDistance loc0.latitude loc0.longitude
    pB.latitude pB.longitude = 6371 * π / 1800 := by
  have h := computeDistance_meridian 0 0 (1 / 10000) (by norm_num) (by norm_num)
  rw [zero_add] at h
  show computeDistance 0 0 (1 / 10000) 0 = 6371 * π / 1800
  rw [h]
  ring

theorem dist_pC : computeDistance loc0.latitude loc0.longitude
    pC.latitude pC.longitude = 6371 * π / 180 := by
  have h := computeDistance_meridian 0 0 (1 / 1000) (by norm_num) (by norm_num)
  rw [zero_add] at h
  show computeDistance 0 0 (1 / 1000) 0 = 6371 * π / 180
  rw [h]
  ring

theorem dist_pT : computeDistance loc0.latitude loc0.longitude
    pT.latitude pT.longitude = 25 := by
  have hπ := Real.pi_gt_three
  have hδ0 : (0:ℝ) ≤ 4500 / (6371000 * π) := by positivity
  have hδ180 : (4500:ℝ) / (6371000 * π) ≤ 180 := by
    rw [div_le_iff₀ (by positivity)]
    nlinarith
  have h := computeDistance_meridian 0 0 (4500 / (6371000 * π)) hδ0 hδ180
  rw [zero_add] at h
  show computeDistance 0 0 (4500 / (6371000 * π)) 0 = 25
  rw [h]
  have hne : π ≠ 0 := Real.pi_ne_zero
  field_simp
  ring

theorem dist_pN : computeDistance loc37.latitude loc37.longitude
    pN.latitude pN.longitude = 100 := by
  have hπ := Real.pi_gt_three
  have hδ0 : (0:ℝ) ≤ 18000 / (6371000 * π) := by positivity
  have hδ180 : (18000:ℝ) / (6371000 * π) ≤ 180 := by
    rw [div_le_iff₀ (by positivity)]
    nlinarith
  have h := computeDistance_meridian 37.7749 (-122.4194) (18000 / (6371000 * π)) hδ0 hδ180
  show computeDistance 37.7749 (-122.4194) (37.7749 + 18000 / (6371000 * π)) (-122.4194) = 100
  rw [h]
  have hne : π ≠ 0 := Real.pi_ne_zero
  field_simp
  ring

theorem dist_pA_lt : computeDistance loc0.latitude loc0.longitude
    pA.latitude pA.longitude < CLOSE_BY_DISTANCE := by
  rw [dist_pA]
  show 6371 * π / 900 < 25
  nlinarith [Real.pi_lt_d2]

theorem dist_pB_lt : computeDistance loc0.latitude loc0.longitude
    pB.latitude pB.longitude < CLOSE_BY_DISTANCE := by
  rw [dist_pB]
  show 6371 * π / 1800 < 25
  nlinarith [Real.pi_lt_d2]

theorem dist_pC_ge : CLOSE_BY_DISTANCE ≤ computeDistance loc0.latitude loc0.longitude
    pC.latitude pC.longitude := by
  rw [dist_pC]
  show (25:ℝ) ≤ 6371 * π / 180
  nlinarith [Real.pi_gt_three]

theorem bearing_pC : computeBearing loc0.latitude loc0.longitude
    pC.latitude pC.longitude = 0 := by
  have h := computeBearing_meridian 0 0 (1 / 1000) (by norm_num) (by norm_num)
  rw [zero_add] at h
  exact h

theorem bearing_pT : computeBearing loc0.latitude loc0.longitude
    pT.latitude pT.longitude = 0 := by
  have hπ := Real.pi_gt_three
  have hδ0 : (0:ℝ) < 4500 / (6371000 * π) := by positivity
  have hδ180 : (4500:ℝ) / (6371000 * π) < 180 := by
    rw [div_lt_iff₀ (by positivity)]
    nlinarith
  have h := computeBearing_meridian 0 0 (4500 / (6371000 * π)) hδ0 hδ180
  rw [zero_add] at h
  exact h

theorem bearing_pN : computeBearing loc37.latitude loc37.longitude
    pN.latitude pN.longitude = 0 := by
  have hπ := Real.pi_gt_three
  have hδ0 : (0:ℝ) < 18000 / (6371000 * π) := by positivity
  have hδ180 : (18000:ℝ) / (6371000 * π) < 180 := by
    rw [div_lt_iff₀ (by positivity)]
    nlinarith
  exact computeBearing_meridian 37.7749 (-122.4194) (18000 / (6371000 * π)) hδ0 hδ180

/-- Evaluate `angleDiff` once the wrapped quotient is known. -/
theorem angleDiff_eq (b h : ℝ) (k : ℤ) (hk : 0 ≤ k)
    (h1 : 360 * (k:ℝ) ≤ b - h + 540) (h2 : b - h + 540 < 360 * ((k:ℝ) + 1)) :
    angleDiff b h = b - h + 540 - 360 * k - 180 := by
  unfold angleDiff
  rw [jsFmod_eq _ 360 k hk (by norm_num) h1 h2]

theorem angleDiff_zero_zero : angleDiff 0 0 = 0 := by
  have h := angleDiff_eq 0 0 1 (by norm_num) (by norm_num) (by norm_num)
  norm_num at h
  exact h

theorem angleDiff_0_330 : angleDiff 0 330 = 30 := by
  have h := angleDiff_eq 0 330 0 le_rfl (by norm_num) (by norm_num)
  norm_num at h
  exact h

theorem angleDiff_10_350 : angleDiff 10 350 = 20 := by
  have h := angleDiff_eq 10 350 0 le_rfl (by norm_num) (by norm_num)
  norm_num at h
  exact h

theorem angleDiff_350_0 : angleDiff 350 0 = -10 := by
  have h := angleDiff_eq 350 0 2 (by norm_num) (by norm_num) (by norm_num)
  norm_num at h
  exact h

theorem angleDiff_180_0 : angleDiff 180 0 = -180 := by
  have h := angleDiff_eq 180 0 2 (by norm_num) (by norm_num) (by norm_num)
  norm_num at h
  exact h

theorem box_pB : isSameLocation loc0 ⟨pB.latitude, pB.longitude⟩ LOCATION_THRESHOLD := by
  show |(0:ℝ) - 1 / 10000| < 0.05 ∧ |(0:ℝ) - 0| < 0.05
  constructor <;> rw [abs_lt] <;> constructor <;> norm_num

theorem box_pC : isSameLocation loc0 ⟨pC.latitude, pC.longitude⟩ LOCATION_THRESHOLD := by
  show |(0:ℝ) - 1 / 1000| < 0.05 ∧ |(0:ℝ) - 0| < 0.05
  constructor <;> rw [abs_lt] <;> constructor <;> norm_num

theorem box_pT : isSameLocation loc0 ⟨pT.latitude, pT.longitude⟩ LOCATION_THRESHOLD := by
  have hπ := Real.pi_gt_three
  show |(0:ℝ) - 4500 / (6371000 * π)| < 0.05 ∧ |(0:ℝ) - 0| < 0.05
  constructor
  · rw [zero_sub, abs_neg, abs_of_nonneg (by positivity)]
    rw [div_lt_iff₀ (by positivity)]
    nlinarith
  · rw [abs_lt]
    constructor <;> norm_num

theorem box_pN : isSameLocation loc37 ⟨pN.latitude, pN.longitude⟩ LOCATION_THRESHOLD := by
  have hπ := Real.pi_gt_three
  show |(37.7749:ℝ) - (37.7749 + 18000 / (6371000 * π))| < 0.05 ∧
    |(-122.4194:ℝ) - -122.4194| < 0.05
  constructor
  · rw [show (37.7749:ℝ) - (37.7749 + 18000 / (6371000 * π)) =
      -(18000 / (6371000 * π)) from by ring, abs_neg,
      abs_of_nonneg (by positivity), div_lt_iff₀ (by positivity)]
    nlinarith
  · rw [abs_lt]
    constructor <;> norm_num

/-! ### Claim theorems -/

/-- The `atan2` result converted to degrees is strictly above `-180`. -/
theorem toDeg_atan2_gt (y x : ℝ) : -180 < toDeg (atan2 y x) := by
  have h := Complex.neg_pi_lt_arg ⟨x, y⟩
  have hπ := Real.pi_pos
  unfold toDeg atan2
  rw [lt_div_iff₀ hπ]
  nlinarith

/-- C7: for every pair of valid GeoPoints (latitudes in [-90, 90], longitudes
in [-180, 180]), `computeBearing` returns a value in `[0, 360)`. -/
theorem C7_bearing_range (lat1 lon1 lat2 lon2 : ℝ)
    (_h1 : -90 ≤ lat1) (_h2 : lat1 ≤ 90) (_h3 : -180 ≤ lon1) (_h4 : lon1 ≤ 180)
    (_h5 : -90 ≤ lat2) (_h6 : lat2 ≤ 90) (_h7 : -180 ≤ lon2) (_h8 : lon2 ≤ 180) :
    0 ≤ computeBearing lat1 lon1 lat2 lon2 ∧ computeBearing lat1 lon1 lat2 lon2 < 360 := by
  unfold computeBearing
  apply jsFmod_nonneg_lt _ 360 ?_ (by norm_num)
  have h := toDeg_atan2_gt
    (Real.sin (toRad lon2 - toRad lon1) * Real.cos (toRad lat2))
    (Real.cos (toRad lat1) * Real.sin (toRad lat2) -
      Real.sin (toRad lat1) * Real.cos (toRad lat2) *
        Real.cos (toRad lon2 - toRad lon1))
  linarith

/-- C7 witness: the bearing from the origin to `(0, 1)` is in `[0, 360)`. -/
theorem C7_witness : 0 ≤ computeBearing 0 0 0 1 ∧ computeBearing 0 0 0 1 < 360 :=
  C7_bearing_range 0 0 0 1 (by norm_num) (by norm_num) (by norm_num) (by norm_num)
    (by norm_num) (by norm_num) (by norm_num) (by norm_num)

/-- C8: for every GeoPoint `p`, the bearing from `p` to itself is the
deterministic default `0` (the code computes `atan2 0 0 = 0`, not NaN). -/
theorem C8_bearing_self (p : Coords) :
    computeBearing p.latitude p.longitude p.latitude p.longitude = 0 :=
  computeBearing_self p.latitude p.longitude

/-- C9: the haversine distance is symmetric in its two endpoints (exactly, in
the real-number model of the floating-point code). -/
theorem C9_distance_symm (lat1 lon1 lat2 lon2 : ℝ) :
    computeDistance lat1 lon1 lat2 lon2 = computeDistance lat2 lon2 lat1 lon1 := by
  unfold computeDistance
  have hlat : Real.sin (toRad (lat1 - lat2) / 2) ^ 2 =
      Real.sin (toRad (lat2 - lat1) / 2) ^ 2 := by
    rw [show toRad (lat1 - lat2) / 2 = -(toRad (lat2 - lat1) / 2) from by
      unfold toRad; ring, Real.sin_neg]
    ring
  have hlon : Real.sin (toRad (lon1 - lon2) / 2) ^ 2 =
      Real.sin (toRad (lon2 - lon1) / 2) ^ 2 := by
    rw [show toRad (lon1 - lon2) / 2 = -(toRad (lon2 - lon1) / 2) from by
      unfold toRad; ring, Real.sin_neg]
    ring
  rw [hlat, hlon, mul_comm (Real.cos (toRad lat2)) (Real.cos (toRad lat1))]

/-- The angular offset of a target dead-ahead (bearing equal to heading) is 0. -/
theorem angleDiff_self (h : ℝ) : angleDiff h h = 0 := by
  have e := angleDiff_eq h h 1 (by norm_num) (by push_cast; linarith) (by push_cast; linarith)
  rw [e]
  push_cast
  ring

/-- C1 counterexample: bearing 180 and heading 0 both lie in `[0, 360)`, yet
the angular offset is exactly `-180`, which is outside the claimed signed
range `(-180, 180]`. -/
theorem C1_counterexample :
    (0:ℝ) ≤ 180 ∧ (180:ℝ) < 360 ∧ (0:ℝ) ≤ 0 ∧ (0:ℝ) < 360 ∧
    angleDiff 180 0 = -180 ∧ ¬ (-180 < angleDiff 180 0) := by
  refine ⟨by norm_num, by norm_num, le_rfl, by norm_num, angleDiff_180_0, ?_⟩
  rw [angleDiff_180_0]
  norm_num

/-- C1 (amended): for every bearing and heading in `[0, 360)` the angular
offset equals `((bearing - heading + 540) mod 360) - 180` and lies in the
signed range `[-180, 180)`, with 0 meaning dead-ahead and negative meaning to
the left; heading 350 with bearing 10 yields +20. -/
theorem C1_angularOffset_range (b h : ℝ) (hb0 : 0 ≤ b) (_hb : b < 360)
    (_hh0 : 0 ≤ h) (hh : h < 360) :
    angleDiff b h = jsFmod (b - h + 540) 360 - 180 ∧
    -180 ≤ angleDiff b h ∧ angleDiff b h < 180 ∧
    angleDiff h h = 0 ∧ angleDiff 10 350 = 20 ∧ angleDiff 350 0 = -10 := by
  have ha : (0:ℝ) ≤ b - h + 540 := by linarith
  have hmod := jsFmod_nonneg_lt (b - h + 540) 360 ha (by norm_num)
  refine ⟨rfl, ?_, ?_, angleDiff_self h, angleDiff_10_350, angleDiff_350_0⟩
  · unfold angleDiff
    linarith [hmod.1]
  · unfold angleDiff
    linarith [hmod.2]

/-- C1 witness: at bearing 10 and heading 350 the offset is +20, within
`[-180, 180)`, and equals the wrap formula. -/
theorem C1_witness :
    angleDiff 10 350 = jsFmod (10 - 350 + 540) 360 - 180 ∧
    -180 ≤ angleDiff 10 350 ∧ angleDiff 10 350 < 180 ∧ angleDiff 10 350 = 20 := by
  obtain ⟨e1, e2, e3, -, e5, -⟩ := C1_angularOffset_range 10 350
    (by norm_num) (by norm_num) (by norm_num) (by norm_num)
  exact ⟨e1, e2, e3, e5⟩

/-- C2 counterexample: `pC` is a far candidate (≈111 m ≥ 25 m) whose angular
offset at heading 330 is exactly `FOV/2 = 30`, yet it is classified
FAR_VISIBLE (rendered), not FAR_HIDDEN. -/
theorem C2_counterexample :
    CLOSE_BY_DISTANCE ≤ computeDistance loc0.latitude loc0.longitude
      pC.latitude pC.longitude ∧
    |angleDiff (computeBearing loc0.latitude loc0.longitude
      pC.latitude pC.longitude) 330| = CAMERA_HORIZONTAL_FOV / 2 ∧
    classify loc0 330 pC = some Classification.FAR_VISIBLE ∧
    classify loc0 330 pC ≠ some Classification.FAR_HIDDEN := by
  have habs : |angleDiff (computeBearing loc0.latitude loc0.longitude
      pC.latitude pC.longitude) 330| = CAMERA_HORIZONTAL_FOV / 2 := by
    rw [bearing_pC, angleDiff_0_330]
    show |(30:ℝ)| = 60 / 2
    rw [abs_of_nonneg (by norm_num)]
    norm_num
  have hcls : classify loc0 330 pC = some Classification.FAR_VISIBLE :=
    classify_eq_FAR_VISIBLE loc0 330 pC box_pC dist_pC_ge (le_of_eq habs)
  refine ⟨dist_pC_ge, habs, hcls, ?_⟩
  rw [hcls]
  simp

/-- C2 (amended): for every candidate passing the coarse pre-filter whose
distance is at or above the threshold, the classification is FAR_HIDDEN iff
the absolute angular offset is strictly greater than FOV/2; a candidate at
exactly FOV/2 is classified FAR_VISIBLE (boundary inclusive as visible). -/
theorem C2_fov_boundary (location : Coords) (heading : ℝ) (photo : PhotoMarker)
    (hbox : isSameLocation location ⟨photo.latitude, photo.longitude⟩ LOCATION_THRESHOLD)
    (hfar : CLOSE_BY_DISTANCE ≤ computeDistance location.latitude location.longitude
      photo.latitude photo.longitude) :
    (classify location heading photo = some Classification.FAR_HIDDEN ↔
      CAMERA_HORIZONTAL_FOV / 2 < |angleDiff (computeBearing location.latitude
        location.longitude photo.latitude photo.longitude) heading|) ∧
    (|angleDiff (computeBearing location.latitude location.longitude
        photo.latitude photo.longitude) heading| = CAMERA_HORIZONTAL_FOV / 2 →
      classify location heading photo = some Classification.FAR_VISIBLE) := by
  constructor
  · constructor
    · intro h
      by_contra hle
      push_neg at hle
      rw [classify_eq_FAR_VISIBLE location heading photo hbox hfar hle] at h
      simp at h
    · exact classify_eq_FAR_HIDDEN location heading photo hbox hfar
  · intro h
    exact classify_eq_FAR_VISIBLE location heading photo hbox hfar (le_of_eq h)

/-- C2 witness: applying the boundary rule at the concrete boundary input
classifies `pC` as FAR_VISIBLE. -/
theorem C2_witness : classify loc0 330 pC = some Classification.FAR_VISIBLE := by
  apply (C2_fov_boundary loc0 330 pC box_pC dist_pC_ge).2
  rw [bearing_pC, angleDiff_0_330]
  show |(30:ℝ)| = 60 / 2
  rw [abs_of_nonneg (by norm_num)]
  norm_num

/-- The close-by strip evaluated at the two-photo list: both photos are within
25 m, so the filter keeps both, in input order. -/
theorem closeBy_pA_pB : closeByPhotos loc0 [pA, pB] = [pA, pB] := by
  unfold closeByPhotos
  rw [List.filter_cons, List.filter_cons, List.filter_nil,
    decide_eq_true dist_pA_lt, decide_eq_true dist_pB_lt]
  simp

/-- C3 counterexample: with candidates `[pA, pB]` (≈22.2 m then ≈11.1 m) the
close-by strip is `[pA, pB]` — input order, strictly decreasing distance — so
it is not sorted by ascending distance. -/
theorem C3_counterexample :
    closeByPhotos loc0 [pA, pB] = [pA, pB] ∧
    computeDistance loc0.latitude loc0.longitude pB.latitude pB.longitude <
      computeDistance loc0.latitude loc0.longitude pA.latitude pA.longitude ∧
    ¬ List.Pairwise (fun p q => computeDistance loc0.latitude loc0.longitude
        p.latitude p.longitude ≤ computeDistance loc0.latitude loc0.longitude
        q.latitude q.longitude) (closeByPhotos loc0 [pA, pB]) := by
  have hBA : computeDistance loc0.latitude loc0.longitude pB.latitude pB.longitude <
      computeDistance loc0.latitude loc0.longitude pA.latitude pA.longitude := by
    rw [dist_pA, dist_pB]
    have := Real.pi_pos
    linarith
  refine ⟨closeBy_pA_pB, hBA, ?_⟩
  rw [closeBy_pA_pB]
  intro hp
  have hAB := (List.pairwise_cons.1 hp).1 pB (by simp)
  linarith

/-- C3 (amended): the close-by strip contains exactly the candidates whose
distance is strictly below the near/far threshold (the NEAR candidates), and
it preserves the input candidate order (stable filter) rather than sorting by
ascending distance. -/
theorem C3_closeBy_membership_order (location : Coords) (photos : List PhotoMarker)
    (photo : PhotoMarker) :
    (photo ∈ closeByPhotos location photos ↔ photo ∈ photos ∧
      computeDistance location.latitude location.longitude
        photo.latitude photo.longitude < CLOSE_BY_DISTANCE) ∧
    (closeByPhotos location photos).Sublist photos :=
  ⟨mem_closeByPhotos_iff location photos photo, closeByPhotos_sublist location photos⟩

/-- C4: a candidate is classified NEAR iff its haversine distance to the
current position is strictly below the 25 m threshold — both at the overlay
gate (for candidates passing the coarse pre-filter) and at the close-by strip
— and a candidate at exactly the threshold is a FAR candidate: not NEAR, not
in the strip, and it proceeds to the bearing/FOV test. -/
theorem C4_near_iff_lt_threshold (location : Coords) (heading : ℝ)
    (photos : List PhotoMarker) (photo : PhotoMarker) :
    (isSameLocation location ⟨photo.latitude, photo.longitude⟩ LOCATION_THRESHOLD →
      (classify location heading photo = some Classification.NEAR ↔
        computeDistance location.latitude location.longitude
          photo.latitude photo.longitude < CLOSE_BY_DISTANCE)) ∧
    (photo ∈ photos →
      (photo ∈ closeByPhotos location photos ↔
        computeDistance location.latitude location.longitude
          photo.latitude photo.longitude < CLOSE_BY_DISTANCE)) ∧
    (computeDistance location.latitude location.longitude
        photo.latitude photo.longitude = CLOSE_BY_DISTANCE →
      classify location heading photo ≠ some Classification.NEAR ∧
      photo ∉ closeByPhotos location photos ∧
      (isSameLocation location ⟨photo.latitude, photo.longitude⟩ LOCATION_THRESHOLD →
        classify location heading photo = some Classification.FAR_HIDDEN ∨
        classify location heading photo = some Classification.FAR_VISIBLE)) := by
  refine ⟨?_, ?_, ?_⟩
  · intro hbox
    constructor
    · intro h
      exact (classify_NEAR_elim location heading photo h).2
    · exact classify_eq_NEAR location heading photo hbox
  · intro hmem
    rw [mem_closeByPhotos_iff]
    exact ⟨fun h => h.2, fun h => ⟨hmem, h⟩⟩
  · intro heq
    refine ⟨?_, ?_, ?_⟩
    · intro h
      have := (classify_NEAR_elim location heading photo h).2
      rw [heq] at this
      exact lt_irrefl _ this
    · rw [mem_closeByPhotos_iff]
      rintro ⟨-, hlt⟩
      rw [heq] at hlt
      exact lt_irrefl _ hlt
    · intro hbox
      by_cases hfov : CAMERA_HORIZONTAL_FOV / 2 < |angleDiff (computeBearing
        location.latitude location.longitude photo.latitude photo.longitude) heading|
      · exact Or.inl (classify_eq_FAR_HIDDEN location heading photo hbox heq.ge hfov)
      · exact Or.inr (classify_eq_FAR_VISIBLE location heading photo hbox heq.ge
          (not_lt.1 hfov))

/-- C4 witness: `pB` (≈11.1 m) is classified NEAR and appears in the strip;
`pT` (exactly 25 m) is not NEAR and is excluded from the strip. -/
theorem C4_witness :
    classify loc0 0 pB = some Classification.NEAR ∧
    pB ∈ closeByPhotos loc0 [pB] ∧
    classify loc0 0 pT ≠ some Classification.NEAR ∧
    pT ∉ closeByPhotos loc0 [pT] := by
  have hT : computeDistance loc0.latitude loc0.longitude pT.latitude pT.longitude =
      CLOSE_BY_DISTANCE := dist_pT.trans (by rfl)
  obtain ⟨ha, hb, -⟩ := C4_near_iff_lt_threshold loc0 0 [pB] pB
  obtain ⟨-, -, hc⟩ := C4_near_iff_lt_threshold loc0 0 [pT] pT
  exact ⟨(ha box_pB).2 dist_pB_lt, (hb (by simp)).2 dist_pB_lt,
    (hc hT).1, (hc hT).2.1⟩

/-- C5: every rendered FAR_VISIBLE marker sits at
`screenX = ((angularOffset + FOV/2) / FOV) * viewportWidth - markerHalfWidth`
(with markerHalfWidth 25, half the 50 px marker); a dead-ahead marker
(angular offset 0) sits at `viewportWidth / 2 - markerHalfWidth`. -/
theorem C5_screenX (screenWidth screenHeight : ℝ) (location : Coords)
    (heading : ℝ) (photo : PhotoMarker) (m : RenderedMarker)
    (h : renderMarker screenWidth screenHeight location heading photo = some m) :
    m.left = ((angleDiff (computeBearing location.latitude location.longitude
        photo.latitude photo.longitude) heading + CAMERA_HORIZONTAL_FOV / 2) /
          CAMERA_HORIZONTAL_FOV) * screenWidth - 25 ∧
    (angleDiff (computeBearing location.latitude location.longitude
        photo.latitude photo.longitude) heading = 0 →
      m.left = screenWidth / 2 - 25) := by
  obtain ⟨-, -, -, hm⟩ := renderMarker_some_elim _ _ _ _ _ _ h
  subst hm
  constructor
  · rfl
  · intro h0
    show ((angleDiff (computeBearing location.latitude location.longitude
        photo.latitude photo.longitude) heading + CAMERA_HORIZONTAL_FOV / 2) /
          CAMERA_HORIZONTAL_FOV) * screenWidth - 25 = screenWidth / 2 - 25
    rw [h0]
    unfold CAMERA_HORIZONTAL_FOV
    ring

/-- The fully evaluated end-to-end marker for `pN` seen from `loc37` at
heading 0 on a 400×800 viewport: dead-ahead at 100 m. -/
noncomputable def mN : RenderedMarker := ⟨"n", "uriN", 175, 375, 1 / 2, 100⟩

/-- End-to-end evaluation of `renderMarker` at the C5/C6 scenario input. -/
theorem renderMarker_pN : renderMarker 400 800 loc37 0 pN = some mN := by
  have hAngle : angleDiff (computeBearing loc37.latitude loc37.longitude
      pN.latitude pN.longitude) 0 = 0 := by
    rw [bearing_pN, angleDiff_zero_zero]
  have hfar : CLOSE_BY_DISTANCE ≤ computeDistance loc37.latitude loc37.longitude
      pN.latitude pN.longitude := by
    rw [dist_pN]
    show (25:ℝ) ≤ 100
    norm_num
  have hfov : |angleDiff (computeBearing loc37.latitude loc37.longitude
      pN.latitude pN.longitude) 0| ≤ CAMERA_HORIZONTAL_FOV / 2 := by
    rw [hAngle]
    show |(0:ℝ)| ≤ 60 / 2
    rw [abs_of_nonneg le_rfl]
    norm_num
  rw [renderMarker_eq_some 400 800 loc37 0 pN box_pN hfar hfov]
  rw [hAngle, dist_pN]
  unfold mN pN CAMERA_HORIZONTAL_FOV
  norm_num [min_def, max_def]

/-- C5 witness: at the end-to-end scenario (heading 0, bearing 0, 100 m,
FOV 60) the marker is rendered dead-ahead at `400 / 2 - 25`. -/
theorem C5_witness :
    renderMarker 400 800 loc37 0 pN = some mN ∧ mN.left = 400 / 2 - 25 := by
  have hAngle : angleDiff (computeBearing loc37.latitude loc37.longitude
      pN.latitude pN.longitude) 0 = 0 := by
    rw [bearing_pN, angleDiff_zero_zero]
  exact ⟨renderMarker_pN,
    (C5_screenX 400 800 loc37 0 pN mN renderMarker_pN).2 hAngle⟩

/-- C6: every rendered marker's scale equals
`min(1.5, 50 / max(distance, 1))`; the divisor is at least 1, and the scale is
positive and at most the cap 1.5. -/
theorem C6_scale (screenWidth screenHeight : ℝ) (location : Coords)
    (heading : ℝ) (photo : PhotoMarker) (m : RenderedMarker)
    (h : renderMarker screenWidth screenHeight location heading photo = some m) :
    0 ≤ m.distanceMeters ∧
    m.scale = min 1.5 (50 / max m.distanceMeters 1) ∧
    1 ≤ max m.distanceMeters 1 ∧
    0 < m.scale ∧ m.scale ≤ 1.5 := by
  obtain ⟨-, hfar, -, hm⟩ := renderMarker_some_elim _ _ _ _ _ _ h
  have h25 : (25:ℝ) ≤ computeDistance location.latitude location.longitude
      photo.latitude photo.longitude := hfar
  subst hm
  refine ⟨?_, rfl, le_max_right _ _, ?_, ?_⟩
  · show (0:ℝ) ≤ computeDistance location.latitude location.longitude
      photo.latitude photo.longitude
    linarith
  · show 0 < min 1.5 (50 / max (computeDistance location.latitude location.longitude
      photo.latitude photo.longitude) 1)
    apply lt_min (by norm_num)
    apply div_pos (by norm_num)
    exact lt_of_lt_of_le one_pos (le_max_right _ _)
  · show min 1.5 (50 / max (computeDistance location.latitude location.longitude
      photo.latitude photo.longitude) 1) ≤ 1.5
    exact min_le_left _ _

/-- C6 witness: the rendered 100 m marker has scale
`min 1.5 (50 / max 100 1) = 1/2`, positive and at most the cap. -/
theorem C6_witness :
    renderMarker 400 800 loc37 0 pN = some mN ∧
    mN.scale = min 1.5 (50 / max mN.distanceMeters 1) ∧
    0 < mN.scale ∧ mN.scale ≤ 1.5 := by
  obtain ⟨-, hs, -, hpos, hle⟩ := C6_scale 400 800 loc37 0 pN mN renderMarker_pN
  exact ⟨renderMarker_pN, hs, hpos, hle⟩

/-- C10: the AR overlay set and the close-by strip are disjoint — a photo
within 25 m is never rendered as an AR overlay, and a photo at 25 m or more
never appears in the close-by strip. -/
theorem C10_overlay_strip_disjoint (screenWidth screenHeight : ℝ)
    (location : Coords) (heading : ℝ) (photos : List PhotoMarker)
    (photo : PhotoMarker) :
    ¬ (renderMarker screenWidth screenHeight location heading photo ≠ none ∧
        photo ∈ closeByPhotos location photos) ∧
    (computeDistance location.latitude location.longitude
        photo.latitude photo.longitude < CLOSE_BY_DISTANCE →
      renderMarker screenWidth screenHeight location heading photo = none) ∧
    (CLOSE_BY_DISTANCE ≤ computeDistance location.latitude location.longitude
        photo.latitude photo.longitude →
      photo ∉ closeByPhotos location photos) := by
  refine ⟨?_, fun h => renderMarker_eq_none_of_near _ _ _ _ _ h, ?_⟩
  · rintro ⟨hr, hmem⟩
    have hlt := ((mem_closeByPhotos_iff _ _ _).1 hmem).2
    exact hr (renderMarker_eq_none_of_near _ _ _ _ _ hlt)
  · intro hge hmem
    have hlt := ((mem_closeByPhotos_iff _ _ _).1 hmem).2
    have : (25:ℝ) ≤ computeDistance location.latitude location.longitude
        photo.latitude photo.longitude := hge
    have hlt25 : computeDistance location.latitude location.longitude
        photo.latitude photo.longitude < 25 := hlt
    linarith

/-- C10 witness: the close-by photo `pB` is not rendered as an overlay, and
the far photo `pC` is not in the close-by strip. -/
theorem C10_witness :
    renderMarker 400 800 loc0 0 pB = none ∧ pC ∉ closeByPhotos loc0 [pC] :=
  ⟨(C10_overlay_strip_disjoint 400 800 loc0 0 [pB] pB).2.1 dist_pB_lt,
    (C10_overlay_strip_disjoint 400 800 loc0 0 [pC] pC).2.2 dist_pC_ge⟩

end Echoes
